import Mathlib

/-!
Verification of the OAPE orchestration core (oape-ai-e2e repository).

This file gives a shallow embedding, in Lean 4, of the orchestration core:

* the Session Runner (`src/server/agent.py`, `run_agent`): consuming the
  agent SDK message stream, classifying messages into events, and the
  exception boundary;
* the Job Store and its endpoints (`src/server/server.py`): URL validation,
  job creation, the status query, the SSE cursor drain, job finalization;
* the parallel fan-out phase (`src/agent-wo-server/agent/phase2.py`):
  `asyncio.gather(..., return_exceptions=True)` and the per-label report,
  plus the PR-capture retry control flow of phases 1 and 2;
* the CI Watcher (`src/agent-wo-server/agent/phase3.py`): the PR status
  snapshot derived from the provider response, the classification of a
  reference per poll, and the poll/timeout loop.

Python machine details are embedded explicitly: `x or default` on an
optional integer treats `0` as falsy (`orDefault`), string truthiness
treats `""` as falsy (`strOptTruthy`), dollar costs are carried as exact
rationals because the source only copies them (never computes with them),
and wall-clock time in the watcher loop advances by the poll interval per
iteration (polls themselves are modelled as instantaneous).
-/

namespace Oape

/-! ## Session Runner: message stream and events (src/server/agent.py) -/

/-- A content block of an `AssistantMessage` from the agent SDK
(`TextBlock`, `ThinkingBlock`, `ToolUseBlock`, `ToolResultBlock`,
or any other block type). -/
inductive Block where
  | text (content : String)
  | thinking (content : String)
  | toolUse (name : String) (input : String)
  | toolResult (toolUseId : String) (content : String) (isError : Bool)
  | other (blockType : String) (detail : String)
deriving Repr, DecidableEq

/-- A message yielded by the agent SDK `query` stream: an
`AssistantMessage` holding blocks, a terminal `ResultMessage` carrying an
optional final text and the cumulative cost, or any other message type. -/
inductive Message where
  | assistant (blocks : List Block)
  | result (res : Option String) (totalCostUsd : Rat)
  | other (msgType : String) (detail : String)
deriving Repr, DecidableEq

/-- One conversation entry (the dicts `run_agent` emits via `_emit`):
the classification of each incoming block or message,
per `run_agent` in src/server/agent.py lines 218-291. -/
inductive Event where
  | text (content : String)
  | thinking (content : String)
  | toolUse (toolName : String) (toolInput : String)
  | toolResult (toolUseId : String) (content : String) (isError : Bool)
  | unknownBlock (blockType : String) (content : String)
  | result (content : Option String) (costUsd : Rat)
  | unknownMsg (msgType : String) (content : String)
deriving Repr, DecidableEq

/-- Dataclass `AgentResult` (src/server/agent.py lines 163-174). -/
structure AgentResult where
  output : String
  cost_usd : Rat
  error : Option String := none
  conversation : List Event := []
deriving Repr, DecidableEq

/-- The `success` property: `error is None`. -/
def AgentResult.success (r : AgentResult) : Bool := r.error.isNone

/-- The mutable locals of `run_agent` while it consumes the stream:
`output_parts`, `conversation`, `cost_usd`. -/
structure RunState where
  output_parts : List String
  conversation : List Event
  cost_usd : Rat
deriving Repr, DecidableEq

/-- Classification of one assistant block into its event entry,
mirroring the `isinstance` chain of src/server/agent.py lines 224-268. -/
def blockEvent : Block → Event
  | .text c => .text c
  | .thinking c => .thinking c
  | .toolUse n i => .toolUse n i
  | .toolResult id c e => .toolResult id c e
  | .other bt d => .unknownBlock bt d

/-- Processing one assistant block: text blocks are also collected into
`output_parts`; every block's event is appended to the conversation. -/
def processBlock (st : RunState) (b : Block) : RunState :=
  { st with
    output_parts :=
      match b with
      | .text c => st.output_parts ++ [c]
      | _ => st.output_parts
    conversation := st.conversation ++ [blockEvent b] }

/-- Processing one stream message, per src/server/agent.py lines 223-291:
assistant messages are processed block by block; a `ResultMessage` sets
`cost_usd`, appends a truthy (non-empty) final text to `output_parts`, and
emits a `result` event; any other message emits an `unknownMsg` event. -/
def processMessage (st : RunState) : Message → RunState
  | .assistant blocks => blocks.foldl processBlock st
  | .result res cost =>
      { st with
        cost_usd := cost
        output_parts :=
          match res with
          | some r => if r = "" then st.output_parts else st.output_parts ++ [r]
          | none => st.output_parts
        conversation := st.conversation ++ [.result res cost] }
  | .other mt d => { st with conversation := st.conversation ++ [.unknownMsg mt d] }

/-- Function `run_agent` (src/server/agent.py lines 177-308).  `stream` is the
prefix of messages the `async for` loop successfully yielded; `exc = some e`
models an exception with description `e` (`str(exc)`) raised after that
prefix, `exc = none` a stream that ended normally.  The `try/except` at the
boundary turns an exception into a returned `AgentResult` (output `""`,
accrued cost, `error = str(exc)`, accrued conversation) — the function is
total, so no exception ever propagates to the caller. -/
def run_agent (stream : List Message) (exc : Option String) : AgentResult :=
  let st := stream.foldl processMessage ⟨[], [], 0⟩
  match exc with
  | none =>
      { output := String.intercalate "\n" st.output_parts
        cost_usd := st.cost_usd
        error := none
        conversation := st.conversation }
  | some e =>
      { output := ""
        cost_usd := st.cost_usd
        error := some e
        conversation := st.conversation }

/-! ## Job store and HTTP surface (src/server/server.py) -/

/-- One job record of the in-memory store `jobs` (src/server/server.py
lines 73-81), minus the `message_event` condition variable, which carries
no data. -/
structure Job where
  status : String
  ep_url : String
  conversation : List Event
  output : String
  cost_usd : Rat
  error : Option String
deriving Repr, DecidableEq

/-- The fresh job record created by `submit_job`. -/
def mkJob (ep_url : String) : Job :=
  { status := "running", ep_url := ep_url, conversation := [],
    output := "", cost_usd := 0, error := none }

/-- Literal head of `EP_URL_PATTERN` (src/server/server.py lines 35-37):
`^https://github\.com/openshift/enhancements/pull/\d+/?$`. -/
def EP_PREFIX_CHARS : List Char :=
  "https://github.com/openshift/enhancements/pull/".toList

/-- Strip a literal head from a character list, returning the rest on a
match.  Used to embed the anchored literal part of `EP_URL_PATTERN`. -/
def stripLiteral : List Char → List Char → Option (List Char)
  | [], rest => some rest
  | _ :: _, [] => none
  | p :: ps, c :: cs => if c = p then stripLiteral ps cs else none

/-- Remove one trailing `/` if present (`/?$` in the pattern). -/
def dropTrailingSlash (cs : List Char) : List Char :=
  match cs.reverse with
  | '/' :: rest => rest.reverse
  | _ => cs

/-- Full anchored match of `EP_URL_PATTERN`: the literal head, then one or
more digits, then an optional `/`, then end of string.  `\d` is embedded
as an ASCII decimal digit (the inputs the endpoints handle are ASCII). -/
def epPatternMatch (cs : List Char) : Bool :=
  match stripLiteral EP_PREFIX_CHARS cs with
  | none => false
  | some rest =>
      let ds := dropTrailingSlash rest
      !ds.isEmpty && ds.all Char.isDigit

/-- Python `str.rstrip("/")`: remove every trailing slash. -/
def rstripSlashes (cs : List Char) : List Char :=
  (cs.reverse.dropWhile (fun c => c = '/')).reverse

/-- Predicate form of `_validate_ep_url` (src/server/server.py lines 45-52) as a predicate:
`EP_URL_PATTERN.match(ep_url.rstrip("/"))` succeeds. -/
def validate_ep_url (ep_url : String) : Bool :=
  epPatternMatch (rstripSlashes ep_url.toList)

/-- The interactive validation of `_prompt_ep_url`
(src/agent-wo-server/agent/main.py lines 30-37): the same pattern matched
against the entered URL (already whitespace-stripped). -/
def prompt_ep_url_ok (url : String) : Bool :=
  epPatternMatch url.toList

/-- The `HTTPException` payload raised on validation failure. -/
structure HttpError where
  status_code : Nat
  detail : String
deriving Repr, DecidableEq

/-- The 400 error of `_validate_ep_url`. -/
def invalidEpUrlError : HttpError :=
  { status_code := 400
    detail := "Invalid enhancement PR URL. Expected format: https://github.com/openshift/enhancements/pull/<number>" }

/-- Endpoint `submit_job` (src/server/server.py lines 65-83): validate first; only
on success is a job record inserted into the store and its id returned.
`job_id` stands for the generated `uuid4` fragment. -/
def submit_job (jobs : List (String × Job)) (job_id ep_url : String) :
    Except HttpError (List (String × Job) × String) :=
  if validate_ep_url ep_url then
    .ok (jobs ++ [(job_id, mkJob ep_url)], job_id)
  else
    .error invalidEpUrlError

/-- The body returned by `job_status` (src/server/server.py lines 86-99). -/
structure StatusResponse where
  status : String
  ep_url : String
  output : String
  cost_usd : Rat
  error : Option String
  message_count : Nat
deriving Repr, DecidableEq

/-- Endpoint `job_status` on a job present in the store. -/
def job_status (j : Job) : StatusResponse :=
  { status := j.status, ep_url := j.ep_url, output := j.output,
    cost_usd := j.cost_usd, error := j.error,
    message_count := j.conversation.length }

/-- The `on_message` callback of `_run_job` (src/server/server.py lines
152-154): append one event to the job's conversation log. -/
def append_event (conversation : List Event) (e : Event) : List Event :=
  conversation ++ [e]

/-- The inner drain loop of `stream_job.event_generator`
(src/server/server.py lines 115-120): starting at `cursor`, yield
`conversation[cursor]` and advance the cursor while it is below the log's
length.  This is the incremental read `read_since(id, cursor)`. -/
def read_since (conversation : List Event) (cursor : Nat) : List Event :=
  if h : cursor < conversation.length then
    conversation.get ⟨cursor, h⟩ :: read_since conversation (cursor + 1)
  else []
termination_by conversation.length - cursor

/-- Terminal update of `_run_job` (src/server/server.py lines 156-163): a
successful result sets status/output/cost; a failed result sets only the
terminal status and the error string. -/
def finalize (j : Job) (r : AgentResult) : Job :=
  if r.success then
    { j with status := "success", output := r.output, cost_usd := r.cost_usd }
  else
    { j with status := "failed", error := r.error }

/-! ## Parallel fan-out phase (src/agent-wo-server/agent/phase2.py) -/

/-- Python string-or-None truthiness (`if pr_url:` / `elif result:`):
`None` and `""` are falsy. -/
def strOptTruthy : Option String → Bool
  | none => false
  | some s => !(s = "")

/-- One slot of the list `asyncio.gather(..., return_exceptions=True)`
returns: either the exception the coroutine raised (stored as its
description) or its normal return value (`str | None`, a PR URL). -/
inductive SubOutcome where
  | exc (msg : String)
  | ok (pr_url : Option String)
deriving Repr, DecidableEq

/-- The per-label report line of `phase2.run`
(src/agent-wo-server/agent/phase2.py lines 189-196):
`isinstance(result, Exception)` first, then string truthiness. -/
def reportLine (label : String) : SubOutcome → String
  | .exc e => "  " ++ label ++ " sub-agent failed: " ++ e
  | .ok (some u) =>
      if u = "" then "  " ++ label ++ ": no PR URL captured"
      else "  " ++ label ++ " PR: " ++ u
  | .ok none => "  " ++ label ++ ": no PR URL captured"

/-- Entry point `phase2.run` (src/agent-wo-server/agent/phase2.py lines 177-196):
`asyncio.gather` with `return_exceptions=True` awaits both sub-sessions
and delivers both outcomes as values — an exception in one slot neither
cancels the other task nor re-raises, so `run` always returns normally
(`Except.ok`) with the two report lines in launch order.  An uncaught
exception escaping `run` would be `Except.error`. -/
def phase2_run (controller e2e : SubOutcome) : Except String (List String) :=
  .ok [reportLine "Controller" controller, reportLine "E2E Tests" e2e]

/-- Outcome of the PR-capture control flow at the end of a phase's
scripted session: how many corrective follow-up turns were issued, how
many extraction attempts were made, the captured URL, and whether the
phase aborted the run over a missing PR. -/
structure CaptureResult where
  followups : Nat
  attempts : Nat
  pr_url : Option String
  aborted : Bool
deriving Repr, DecidableEq

/-- PR capture of each phase-2 sub-flow (src/agent-wo-server/agent/
phase2.py lines 73-96 and 146-169): `r1` is `extract_pr_url` applied to
the first scripted turn's text; when it is falsy, exactly one corrective
follow-up turn is issued and `r2` — the extraction result on that second
response — becomes the captured value; the flow then writes its summary
and returns in either case (never failing the run). -/
def phase2_capture (r1 r2 : Option String) : CaptureResult :=
  if strOptTruthy r1 then
    { followups := 0, attempts := 1, pr_url := r1, aborted := false }
  else
    { followups := 1, attempts := 2, pr_url := r2, aborted := false }

/-- PR capture of phase 1, step 5 (src/agent-wo-server/agent/phase1.py
lines 88-106): one extraction attempt on the turn's text, no corrective
follow-up; the phase proceeds to the summary whether or not a URL was
found. -/
def phase1_capture (r : Option String) : CaptureResult :=
  { followups := 0, attempts := 1, pr_url := r, aborted := false }

/-! ## CI Watcher (src/agent-wo-server/agent/phase3.py) -/

/-- Defaults from src/agent-wo-server/agent/config.py. -/
def MAX_CI_WAIT_MINS : Nat := 120

/-- Poll interval default (src/agent-wo-server/agent/config.py). -/
def POLL_INTERVAL_SECS : Nat := 60

/-- Python `value or default` on `int | None`: `None` **and `0`** are
falsy, so both select the default (src/agent-wo-server/agent/phase3.py
lines 78-79). -/
def orDefault (v : Option Nat) (d : Nat) : Nat :=
  match v with
  | none => d
  | some 0 => d
  | some n => n

/-- One entry of the provider's `statusCheckRollup` list. A field the
JSON omits is carried as `""` (Python `c.get(...)` yields `None`, which
equals no quoted literal). -/
structure Check where
  status : String
  conclusion : String
deriving Repr, DecidableEq

/-- The parsed `gh pr view --json` payload consumed by
`_check_pr_status`: `state`, `statusCheckRollup`, `mergeable`,
`mergeStateStatus`. -/
structure PrData where
  state : String
  checks : List Check
  mergeable : String
  mergeStateStatus : String
deriving Repr, DecidableEq

/-- The status snapshot `_check_pr_status` builds
(src/agent-wo-server/agent/phase3.py lines 39-58). -/
structure PRStatus where
  state : String
  checks_pass : Bool
  mergeable : Bool
  num_checks : Nat
  pending : Nat
deriving Repr, DecidableEq

/-- Test `c.get("conclusion") in ("SUCCESS", "NEUTRAL", "SKIPPED")`. -/
def passingConclusion (c : String) : Bool :=
  c == "SUCCESS" || c == "NEUTRAL" || c == "SKIPPED"

/-- Function `_check_pr_status` on a successfully parsed provider response
(src/agent-wo-server/agent/phase3.py lines 39-58): `all_pass` ranges over
the completed checks only; `all_complete` additionally requires at least
one check; `checks_pass` is their conjunction. -/
def check_pr_status_data (d : PrData) : PRStatus :=
  let all_pass :=
    (d.checks.filter (fun c => c.status == "COMPLETED")).all
      (fun c => passingConclusion c.conclusion)
  let all_complete :=
    decide (d.checks.length > 0) && d.checks.all (fun c => c.status == "COMPLETED")
  { state := d.state
    checks_pass := all_pass && all_complete
    mergeable := d.mergeable == "MERGEABLE"
    num_checks := d.checks.length
    pending := (d.checks.filter (fun c => !(c.status == "COMPLETED"))).length }

/-- Function `_check_pr_status` including its failure paths: `none` models a
provider query failure (`gh` non-zero exit or an exception), which yields
a non-passing snapshot with state `"error"`; an unparseable PR URL yields
the same shape with state `"unknown"` — neither state is `"CLOSED"`, so
both are classified pending by the loop. -/
def check_pr_status (resp : Option PrData) : PRStatus :=
  match resp with
  | some d => check_pr_status_data d
  | none =>
      { state := "error", checks_pass := false, mergeable := false,
        num_checks := 0, pending := 0 }

/-- Classification of one reference on one poll. -/
inductive Verdict where
  | passed
  | closed
  | pending
deriving Repr, DecidableEq

/-- The branch structure of the poll loop body
(src/agent-wo-server/agent/phase3.py lines 97-110): `checks_pass` moves a
reference to `passed`; otherwise state `"CLOSED"` moves it to `failed`;
otherwise it stays pending. -/
def classify (st : PRStatus) : Verdict :=
  if st.checks_pass then .passed
  else if st.state == "CLOSED" then .closed
  else .pending

/-- Provider behavior over (wall-clock) poll rounds: the response for a
given URL at a given round index. -/
abbrev Responses := Nat → String → Option PrData

/-- The mutable locals of `phase3.run`'s wait loop: the `remaining`,
`passed` and `failed` label→URL dicts (insertion-ordered association
lists), plus counters for provider polls issued and sleeps performed. -/
structure WatchState where
  remaining : List (String × String)
  passed : List (String × String)
  failed : List (String × String)
  polls : Nat
  sleeps : Nat
deriving Repr, DecidableEq

/-- Handling of one `(label, url)` item inside one round of the wait loop
(src/agent-wo-server/agent/phase3.py lines 93-110): poll the provider once
and move the item to `passed` or `failed`, or keep it in `remaining`. -/
def pollStep (resp : String → Option PrData) (acc : WatchState)
    (lu : String × String) : WatchState :=
  match classify (check_pr_status (resp lu.2)) with
  | .passed => { acc with passed := acc.passed ++ [lu], polls := acc.polls + 1 }
  | .closed => { acc with failed := acc.failed ++ [lu], polls := acc.polls + 1 }
  | .pending => { acc with remaining := acc.remaining ++ [lu], polls := acc.polls + 1 }

/-- One round of the wait loop: iterate over a snapshot of `remaining`
(`list(remaining.items())`), rebuilding `remaining` from the items that
stay pending (deletion from an insertion-ordered dict preserves the order
of the other keys). -/
def pollRound (resp : String → Option PrData) (s : WatchState) : WatchState :=
  s.remaining.foldl (pollStep resp) { s with remaining := [] }

/-- The wait loop of `phase3.run` (src/agent-wo-server/agent/phase3.py
lines 92-113).  Wall-clock time is modelled as advancing by `interval`
seconds per round (the `await asyncio.sleep(interval)`; polls are
instantaneous), so round `i` starts at elapsed time `i * interval` and
runs only while `remaining` is non-empty and `i * interval < wait * 60`.
`fuel` bounds the recursion; since `orDefault` yields `interval ≥ 1`
whenever the defaults are positive, `wait * 60 + 1` rounds are never
exhausted before the time bound fails. -/
def watchLoop (resp : Responses) (wait interval : Nat) :
    Nat → Nat → WatchState → WatchState
  | 0, _, s => s
  | fuel + 1, i, s =>
      if s.remaining ≠ [] ∧ i * interval < wait * 60 then
        let s2 := pollRound (resp i) s
        let s3 := if s2.remaining ≠ [] then { s2 with sleeps := s2.sleeps + 1 } else s2
        watchLoop resp wait interval fuel (i + 1) s3
      else s

/-- The observable outcome of `phase3.run`: the final label sets, the
number of provider polls issued, the number of sleeps, and whether the
final summary report was written. -/
structure Phase3Result where
  passed : List (String × String)
  failed : List (String × String)
  timed_out : List (String × String)
  polls : Nat
  sleeps : Nat
  wrote_report : Bool
deriving Repr, DecidableEq

/-- Entry point `phase3.run` (src/agent-wo-server/agent/phase3.py lines 68-158): an
empty `state.pr_urls` returns immediately, before any poll, sleep, or
report write; otherwise `wait` and `interval` are taken from the
arguments via Python `or` (so an explicit `0` falls back to the default),
the wait loop runs, references still remaining afterwards are reported as
timed out, and the summary report is written. -/
def phase3_run (pr_urls : List (String × String))
    (max_wait_mins poll_secs : Option Nat) (resp : Responses) : Phase3Result :=
  if pr_urls = [] then
    { passed := [], failed := [], timed_out := [],
      polls := 0, sleeps := 0, wrote_report := false }
  else
    let wait := orDefault max_wait_mins MAX_CI_WAIT_MINS
    let interval := orDefault poll_secs POLL_INTERVAL_SECS
    let s := watchLoop resp wait interval (wait * 60 + 1) 0
      { remaining := pr_urls, passed := [], failed := [], polls := 0, sleeps := 0 }
    { passed := s.passed, failed := s.failed, timed_out := s.remaining,
      polls := s.polls, sleeps := s.sleeps, wrote_report := true }

end Oape

namespace Oape

/-! ## Helper lemmas -/

theorem read_since_eq_drop (l : List Event) (k : Nat) :
    read_since l k = List.drop k l := by
  rw [read_since]
  split
  next h =>
    rw [read_since_eq_drop l (k + 1)]
    simp only [List.get_eq_getElem]
    exact (List.drop_eq_getElem_cons h).symm
  next h =>
    rw [List.drop_eq_nil_of_le (by omega)]
termination_by l.length - k

theorem foldl_append_event (es : List Event) (acc : List Event) :
    es.foldl append_event acc = acc ++ es := by
  induction es generalizing acc with
  | nil => simp
  | cons e rest ih => simp [append_event, ih]

/-- The three label buckets of the watcher loop, concatenated. -/
def WatchState.buckets (s : WatchState) : List (String × String) :=
  s.passed ++ s.failed ++ s.remaining

theorem pollStep_buckets (resp : String → Option PrData) (acc : WatchState)
    (lu : String × String) :
    (pollStep resp acc lu).buckets.Perm (acc.buckets ++ [lu]) := by
  unfold pollStep
  cases classify (check_pr_status (resp lu.2)) with
  | passed =>
      simp only [WatchState.buckets, List.append_assoc]
      refine List.Perm.append_left _ (List.perm_append_comm.trans ?_)
      rw [List.append_assoc]
  | closed =>
      simp only [WatchState.buckets, List.append_assoc]
      exact List.Perm.append_left _ (List.Perm.append_left _ List.perm_append_comm)
  | pending =>
      simp [WatchState.buckets]

theorem pollFold_buckets (resp : String → Option PrData)
    (l : List (String × String)) (acc : WatchState) :
    (l.foldl (pollStep resp) acc).buckets.Perm (acc.buckets ++ l) := by
  induction l generalizing acc with
  | nil => simp
  | cons lu rest ih =>
      simp only [List.foldl_cons]
      refine (ih (pollStep resp acc lu)).trans ?_
      refine ((pollStep_buckets resp acc lu).append_right rest).trans ?_
      simp

theorem pollRound_buckets (resp : String → Option PrData) (s : WatchState) :
    (pollRound resp s).buckets.Perm s.buckets := by
  unfold pollRound
  refine (pollFold_buckets resp s.remaining { s with remaining := [] }).trans ?_
  simp [WatchState.buckets]

theorem watchLoop_buckets (resp : Responses) (wait interval : Nat)
    (fuel i : Nat) (s : WatchState) :
    (watchLoop resp wait interval fuel i s).buckets.Perm s.buckets := by
  induction fuel generalizing i s with
  | zero => simp [watchLoop]
  | succ fuel ih =>
      rw [watchLoop]
      split
      next h =>
        refine (ih (i + 1) _).trans ?_
        have hround := pollRound_buckets (resp i) s
        split
        next => exact hround
        next => exact hround
      next h => exact List.Perm.refl _

theorem phase3_run_buckets (pr_urls : List (String × String))
    (mw ps : Option Nat) (resp : Responses) :
    ((phase3_run pr_urls mw ps resp).passed ++
      (phase3_run pr_urls mw ps resp).failed ++
      (phase3_run pr_urls mw ps resp).timed_out).Perm pr_urls := by
  unfold phase3_run
  split
  next h => simp [h]
  next h =>
    have hb := watchLoop_buckets resp (orDefault mw MAX_CI_WAIT_MINS)
      (orDefault ps POLL_INTERVAL_SECS)
      (orDefault mw MAX_CI_WAIT_MINS * 60 + 1) 0
      { remaining := pr_urls, passed := [], failed := [], polls := 0, sleeps := 0 }
    simpa [WatchState.buckets] using hb

/-! ## Claim theorems -/

/-- C2: if an exception is raised while `run_agent` consumes the message
stream, the returned result is failed (`success = false`), its `error`
field is the exception's description, and it carries exactly the cost and
conversation events accrued from the prefix consumed before the exception
(the same values a normal end of stream at that point would report); the
exception is converted to a result, never re-raised. -/
theorem run_agent_exception_boundary (stream : List Message) (e : String) :
    (run_agent stream (some e)).success = false ∧
    (run_agent stream (some e)).error = some e ∧
    (run_agent stream (some e)).cost_usd = (run_agent stream none).cost_usd ∧
    (run_agent stream (some e)).conversation = (run_agent stream none).conversation := by
  simp [run_agent, AgentResult.success]

/-- C1: for every sequence of events appended to a job's (initially
empty) log by the `on_message` callback, the incremental read of
`stream_job.event_generator` from cursor 0 yields exactly those events in
append order, and from any cursor `k ≤ N` yields exactly the suffix
`events[k:]` — nothing skipped, duplicated, or reordered. -/
theorem read_since_replay (es : List Event) (k : Nat) (hk : k ≤ es.length) :
    read_since (es.foldl append_event []) 0 = es ∧
    read_since (es.foldl append_event []) k = es.drop k := by
  rw [foldl_append_event, read_since_eq_drop, read_since_eq_drop]
  simp

/-- Witness for C1 at `es = [text "a", text "b"]`, `k = 1`. -/
theorem read_since_replay_witness :
    1 ≤ ([Event.text "a", Event.text "b"] : List Event).length ∧
    (read_since ([Event.text "a", Event.text "b"].foldl append_event []) 0 =
        [Event.text "a", Event.text "b"] ∧
      read_since ([Event.text "a", Event.text "b"].foldl append_event []) 1 =
        [Event.text "a", Event.text "b"].drop 1) :=
  ⟨by decide, read_since_replay [Event.text "a", Event.text "b"] 1 (by decide)⟩

/-- C7: when a job terminates with a failed result, `_run_job` sets only
the terminal status and the error string: the accumulated event log (and
hence the status query's `message_count`) and the `output` field are
exactly what they were before the failure, so partial progress stays
readable. -/
theorem failed_job_preserves_state (j : Job) (r : AgentResult)
    (h : r.success = false) :
    (finalize j r).conversation = j.conversation ∧
    (job_status (finalize j r)).message_count = (job_status j).message_count ∧
    (job_status (finalize j r)).output = (job_status j).output ∧
    (job_status (finalize j r)).status = "failed" ∧
    (job_status (finalize j r)).error = r.error := by
  simp [finalize, h, job_status]

/-- Witness for C7 at a concrete running job and failed result. -/
theorem failed_job_preserves_state_witness :
    (AgentResult.mk "" 0 (some "boom") [Event.text "partial"]).success = false ∧
    ((finalize { mkJob "u" with conversation := [Event.text "partial"] }
        (AgentResult.mk "" 0 (some "boom") [Event.text "partial"])).conversation =
      ({ mkJob "u" with conversation := [Event.text "partial"] } : Job).conversation ∧
    (job_status (finalize { mkJob "u" with conversation := [Event.text "partial"] }
        (AgentResult.mk "" 0 (some "boom") [Event.text "partial"]))).message_count =
      (job_status { mkJob "u" with conversation := [Event.text "partial"] }).message_count ∧
    (job_status (finalize { mkJob "u" with conversation := [Event.text "partial"] }
        (AgentResult.mk "" 0 (some "boom") [Event.text "partial"]))).output =
      (job_status { mkJob "u" with conversation := [Event.text "partial"] }).output ∧
    (job_status (finalize { mkJob "u" with conversation := [Event.text "partial"] }
        (AgentResult.mk "" 0 (some "boom") [Event.text "partial"]))).status = "failed" ∧
    (job_status (finalize { mkJob "u" with conversation := [Event.text "partial"] }
        (AgentResult.mk "" 0 (some "boom") [Event.text "partial"]))).error =
      (AgentResult.mk "" 0 (some "boom") [Event.text "partial"]).error) :=
  ⟨rfl, failed_job_preserves_state
    { mkJob "u" with conversation := [Event.text "partial"] }
    (AgentResult.mk "" 0 (some "boom") [Event.text "partial"]) rfl⟩

/-- C9: submission accepts the well-formed enhancement PR URL and creates
a job for it, while the two malformed inputs are rejected with a 400
client error and the job store is left untouched (validation precedes job
creation).  The CLI prompt applies the same pattern. -/
theorem submit_validation (jobs : List (String × Job)) (jid : String) :
    submit_job jobs jid "https://github.com/openshift/enhancements/pull/123" =
      .ok (jobs ++
        [(jid, mkJob "https://github.com/openshift/enhancements/pull/123")], jid) ∧
    submit_job jobs jid "https://github.com/openshift/enhancements/pull/abc" =
      .error invalidEpUrlError ∧
    submit_job jobs jid "https://example.com/pull/1" = .error invalidEpUrlError ∧
    prompt_ep_url_ok "https://github.com/openshift/enhancements/pull/123" = true ∧
    prompt_ep_url_ok "https://github.com/openshift/enhancements/pull/abc" = false ∧
    prompt_ep_url_ok "https://example.com/pull/1" = false := by
  have h1 : validate_ep_url "https://github.com/openshift/enhancements/pull/123" = true := by
    decide
  have h2 : validate_ep_url "https://github.com/openshift/enhancements/pull/abc" = false := by
    decide
  have h3 : validate_ep_url "https://example.com/pull/1" = false := by
    decide
  refine ⟨?_, ?_, ?_, by decide, by decide, by decide⟩ <;>
    simp [submit_job, h1, h2, h3]

/-- C6: in the parallel fan-out phase, when one sub-session raises and
the other returns a PR URL, `asyncio.gather(return_exceptions=True)`
still delivers both outcomes; the phase reports one failure label and one
success label and returns normally (`Except.ok`, never an uncaught
exception), in either order of which session failed. -/
theorem parallel_fanout_isolated (e url : String) (hurl : url ≠ "") :
    phase2_run (.exc e) (.ok (some url)) =
      .ok ["  Controller sub-agent failed: " ++ e, "  E2E Tests PR: " ++ url] ∧
    phase2_run (.ok (some url)) (.exc e) =
      .ok ["  Controller PR: " ++ url, "  E2E Tests sub-agent failed: " ++ e] := by
  constructor <;>
    simp only [phase2_run, reportLine, if_neg hurl, Except.ok.injEq,
      List.cons.injEq, and_true] <;>
    constructor <;> rfl

/-- Witness for C6 at a concrete exception and PR URL. -/
theorem parallel_fanout_isolated_witness :
    ("https://github.com/org/repo/pull/7" : String) ≠ "" ∧
    (phase2_run (.exc "boom") (.ok (some "https://github.com/org/repo/pull/7")) =
      .ok ["  Controller sub-agent failed: " ++ "boom",
           "  E2E Tests PR: " ++ "https://github.com/org/repo/pull/7"] ∧
    phase2_run (.ok (some "https://github.com/org/repo/pull/7")) (.exc "boom") =
      .ok ["  Controller PR: " ++ "https://github.com/org/repo/pull/7",
           "  E2E Tests sub-agent failed: " ++ "boom"]) :=
  ⟨by decide,
   parallel_fanout_isolated "boom" "https://github.com/org/repo/pull/7" (by decide)⟩

/-- C8 counterexample: phase 1's PR-capture turn
(src/agent-wo-server/agent/phase1.py lines 102-106) is a scripted turn
expected to produce a PR reference (its prompt ends "Print the PR URL"),
yet when extraction finds none it issues zero corrective follow-up turns,
not exactly one as the claim requires of every phase. -/
theorem phase1_capture_no_followup :
    (phase1_capture none).followups = 0 ∧ ¬(phase1_capture none).followups = 1 := by
  decide

/-- C8 as amended: in each phase-2 sub-flow, a turn whose PR extraction
finds nothing triggers exactly one corrective follow-up turn and exactly
one further extraction attempt, after which the flow proceeds without the
artifact; phase 1's capture turn performs a single extraction attempt
with no follow-up and likewise proceeds.  No phase aborts the run over a
missing PR reference. -/
theorem pr_capture_retry_policy (r2 rr : Option String) :
    (phase2_capture none r2).followups = 1 ∧
    (phase2_capture none r2).attempts = 2 ∧
    (phase2_capture none r2).pr_url = r2 ∧
    (phase2_capture none r2).aborted = false ∧
    (phase1_capture rr).followups = 0 ∧
    (phase1_capture rr).attempts = 1 ∧
    (phase1_capture rr).pr_url = rr ∧
    (phase1_capture rr).aborted = false :=
  ⟨rfl, rfl, rfl, rfl, rfl, rfl, rfl, rfl⟩

/-- C4 counterexample: a provider response with state `CLOSED` whose
single check is `COMPLETED`/`SUCCESS` satisfies `checks_pass`, and the
loop tests `checks_pass` before the state, so the reference is classified
passed, not closed — the claim's "regardless of checks" fails. -/
theorem closed_pr_counterexample :
    classify (check_pr_status (some
      { state := "CLOSED",
        checks := [{ status := "COMPLETED", conclusion := "SUCCESS" }],
        mergeable := "", mergeStateStatus := "" })) = .passed ∧
    ¬classify (check_pr_status (some
      { state := "CLOSED",
        checks := [{ status := "COMPLETED", conclusion := "SUCCESS" }],
        mergeable := "", mergeStateStatus := "" })) = .closed := by
  decide

/-- C4 as amended: a reference whose provider response reports state
`CLOSED` is classified closed on that poll **unless** its checks pass
(at least one check, all completed, all non-failing), in which case the
`checks_pass` branch wins and it is classified passed. -/
theorem closed_pr_classification (d : PrData) (h : d.state = "CLOSED") :
    classify (check_pr_status (some d)) =
      (if (check_pr_status (some d)).checks_pass then .passed else .closed) := by
  unfold classify
  split
  next => rfl
  next hcp =>
    have hst : ((check_pr_status (some d)).state == "CLOSED") = true := by
      simp [check_pr_status, check_pr_status_data, h]
    rw [if_pos hst]

/-- Witness for C4's amended claim at a closed, zero-check response. -/
theorem closed_pr_classification_witness :
    (PrData.mk "CLOSED" [] "" "").state = "CLOSED" ∧
    classify (check_pr_status (some (PrData.mk "CLOSED" [] "" ""))) =
      (if (check_pr_status (some (PrData.mk "CLOSED" [] "" ""))).checks_pass
        then .passed else .closed) :=
  ⟨rfl, closed_pr_classification (PrData.mk "CLOSED" [] "" "") rfl⟩

/-- C5: a parsed provider response is classified passed on a poll if and
only if it has at least one check, every check is `COMPLETED`, and every
check's conclusion is `SUCCESS`, `NEUTRAL` or `SKIPPED`; in particular a
zero-check response is never classified passed (whatever its state), and
the response with checks `[COMPLETED/SUCCESS, COMPLETED/NEUTRAL]` is. -/
theorem ci_passed_iff (d : PrData) :
    (classify (check_pr_status (some d)) = .passed ↔
      (d.checks ≠ [] ∧ ∀ c ∈ d.checks,
        c.status = "COMPLETED" ∧
          (c.conclusion = "SUCCESS" ∨ c.conclusion = "NEUTRAL" ∨
            c.conclusion = "SKIPPED"))) ∧
    (∀ st mg ms, ¬classify (check_pr_status (some
        { state := st, checks := [], mergeable := mg,
          mergeStateStatus := ms })) = .passed) ∧
    classify (check_pr_status (some
      { state := "OPEN",
        checks := [{ status := "COMPLETED", conclusion := "SUCCESS" },
                   { status := "COMPLETED", conclusion := "NEUTRAL" }],
        mergeable := "", mergeStateStatus := "" })) = .passed := by
  have hpass : ∀ st : PRStatus, (classify st = .passed ↔ st.checks_pass = true) := by
    intro st
    cases h : st.checks_pass with
    | false =>
        simp only [classify, h, Bool.false_eq_true, if_false]
        constructor
        · intro hc
          split at hc <;> simp_all
        · intro hc
          exact absurd hc (by simp)
    | true => simp [classify, h]
  refine ⟨?_, ?_, by decide⟩
  · rw [hpass]
    simp only [check_pr_status, check_pr_status_data, Bool.and_eq_true,
      List.all_eq_true, List.mem_filter, decide_eq_true_eq, beq_iff_eq,
      passingConclusion, Bool.or_eq_true, List.length_pos, or_assoc]
    constructor
    · rintro ⟨hA, hne, hB⟩
      refine ⟨hne, fun c hc => ⟨hB c hc, ?_⟩⟩
      exact hA c ⟨hc, hB c hc⟩
    · rintro ⟨hne, hC⟩
      exact ⟨fun c hc => (hC c hc.1).2, hne, fun c hc => (hC c hc).1⟩
  · intro st mg ms
    rw [hpass]
    simp [check_pr_status, check_pr_status_data]

set_option maxRecDepth 4000 in
/-- C3 (evaluation of the code at the spec's failing input): calling the
CI watcher with `max_wait_mins = 0` over one pending reference does not
time it out immediately — Python's `max_wait_mins or MAX_CI_WAIT_MINS`
treats `0` as falsy, so the wait becomes the 120-minute default and the
loop keeps polling the provider: 120 polls and 120 sleeps of the
always-pending reference instead of the claimed zero-extra-poll immediate
`timed_out` classification. -/
theorem max_wait_zero_keeps_polling :
    orDefault (some 0) MAX_CI_WAIT_MINS = 120 ∧
    phase3_run [("api-types", "https://github.com/org/repo/pull/1")]
        (some 0) (some 60) (fun _ _ => none) =
      { passed := [], failed := [],
        timed_out := [("api-types", "https://github.com/org/repo/pull/1")],
        polls := 120, sleeps := 120, wrote_report := true } := by
  constructor
  · rfl
  · decide

/-- C10: with no captured PR references the CI-watch phase returns at
once — zero provider polls, zero sleeps, no final report; and in every
run the passed, closed/failed and timed-out label lists are pairwise
disjoint (labels being unique) and together are exactly the labels of the
captured references. -/
theorem phase3_report_partition (pr_urls : List (String × String))
    (mw ps : Option Nat) (resp : Responses)
    (hnd : (pr_urls.map Prod.fst).Nodup) :
    phase3_run [] mw ps resp =
      { passed := [], failed := [], timed_out := [],
        polls := 0, sleeps := 0, wrote_report := false } ∧
    (((phase3_run pr_urls mw ps resp).passed ++
        (phase3_run pr_urls mw ps resp).failed ++
        (phase3_run pr_urls mw ps resp).timed_out).map Prod.fst).Perm
      (pr_urls.map Prod.fst) ∧
    List.Disjoint ((phase3_run pr_urls mw ps resp).passed.map Prod.fst)
      ((phase3_run pr_urls mw ps resp).failed.map Prod.fst) ∧
    List.Disjoint ((phase3_run pr_urls mw ps resp).passed.map Prod.fst)
      ((phase3_run pr_urls mw ps resp).timed_out.map Prod.fst) ∧
    List.Disjoint ((phase3_run pr_urls mw ps resp).failed.map Prod.fst)
      ((phase3_run pr_urls mw ps resp).timed_out.map Prod.fst) := by
  have hperm : (((phase3_run pr_urls mw ps resp).passed ++
      (phase3_run pr_urls mw ps resp).failed ++
      (phase3_run pr_urls mw ps resp).timed_out).map Prod.fst).Perm
      (pr_urls.map Prod.fst) :=
    (phase3_run_buckets pr_urls mw ps resp).map Prod.fst
  have hnd2 : (((phase3_run pr_urls mw ps resp).passed ++
      (phase3_run pr_urls mw ps resp).failed ++
      (phase3_run pr_urls mw ps resp).timed_out).map Prod.fst).Nodup :=
    hperm.symm.nodup hnd
  rw [List.map_append, List.map_append, List.append_assoc] at hnd2
  rw [List.nodup_append] at hnd2
  obtain ⟨hp, hft, hdisj⟩ := hnd2
  rw [List.nodup_append] at hft
  obtain ⟨hf, ht, hdisj2⟩ := hft
  rw [List.disjoint_append_right] at hdisj
  exact ⟨rfl, hperm, hdisj.1, hdisj.2, hdisj2⟩

/-- Witness for C10 at one labelled reference with an erroring provider. -/
theorem phase3_report_partition_witness :
    ((([("api-types", "u")] : List (String × String)).map Prod.fst).Nodup) ∧
    (phase3_run [] (some 1) (some 1) (fun _ _ => none) =
      { passed := [], failed := [], timed_out := [],
        polls := 0, sleeps := 0, wrote_report := false } ∧
    (((phase3_run [("api-types", "u")] (some 1) (some 1) (fun _ _ => none)).passed ++
        (phase3_run [("api-types", "u")] (some 1) (some 1) (fun _ _ => none)).failed ++
        (phase3_run [("api-types", "u")] (some 1) (some 1) (fun _ _ => none)).timed_out).map
          Prod.fst).Perm
      (([("api-types", "u")] : List (String × String)).map Prod.fst) ∧
    List.Disjoint
      ((phase3_run [("api-types", "u")] (some 1) (some 1) (fun _ _ => none)).passed.map Prod.fst)
      ((phase3_run [("api-types", "u")] (some 1) (some 1) (fun _ _ => none)).failed.map Prod.fst) ∧
    List.Disjoint
      ((phase3_run [("api-types", "u")] (some 1) (some 1) (fun _ _ => none)).passed.map Prod.fst)
      ((phase3_run [("api-types", "u")] (some 1) (some 1) (fun _ _ => none)).timed_out.map Prod.fst) ∧
    List.Disjoint
      ((phase3_run [("api-types", "u")] (some 1) (some 1) (fun _ _ => none)).failed.map Prod.fst)
      ((phase3_run [("api-types", "u")] (some 1) (some 1) (fun _ _ => none)).timed_out.map Prod.fst)) :=
  ⟨by decide,
   phase3_report_partition [("api-types", "u")] (some 1) (some 1)
     (fun _ _ => none) (by decide)⟩

end Oape
